import Mathlib

/-!
Verification development for the unport repository: a shallow embedding of
the daemon registry (src/daemon.rs), the HTTP/WebSocket proxy (src/proxy.rs)
and the client process spawning (src/client.rs, src/process.rs), with
theorems settling the specification claims against the code.

Machine integers are modelled as Nat with explicit reduction mod 2^16 where
u16 overflow matters.  The HashMap of the Rust code is modelled as an
association list with HashMap semantics (insert replaces, keys unique).
-/

namespace Unport

/-! ## Data model (src/tests/types_tests.rs, src/tests/registry_tests.rs)

`types.rs` itself is referenced by the sources; its literal content is pinned
by the test files, which declare `Service`, `Request`, `Response` and the
port-range constants verbatim. -/

/-- Port range start constant, `PORT_RANGE_START = 4000`. -/
def PORT_RANGE_START : Nat := 4000

/-- Port range end constant, `PORT_RANGE_END = 5000`. -/
def PORT_RANGE_END : Nat := 5000

/-- A registered service binding: `struct Service` with fields
`domain : String`, `port : u16`, `pid : u32`, `directory : PathBuf`. -/
structure Service where
  domain : String
  port : Nat
  pid : Nat
  directory : String
deriving Repr, DecidableEq

/-! ## HashMap model

`Registry.services` is a `HashMap<String, Service>`.  We embed it as an
association list; `insert` replaces the value under an existing key,
`remove` deletes the key, `lookup` finds the value under a key. -/

/-- Lookup in the association-list model of `HashMap<String, Service>`. -/
def mapLookup : List (String × Service) → String → Option Service
  | [], _ => none
  | (k, v) :: t, d => if k = d then some v else mapLookup t d

/-- `HashMap::insert`: replace the value when the key is present,
otherwise add the pair. -/
def mapInsert (m : List (String × Service)) (k : String) (v : Service) :
    List (String × Service) :=
  if (mapLookup m k).isSome then
    m.map (fun p => if p.1 = k then (k, v) else p)
  else
    m ++ [(k, v)]

/-- `HashMap::remove`: drop every pair stored under the key. -/
def mapRemove (m : List (String × Service)) (k : String) :
    List (String × Service) :=
  m.filter (fun p => p.1 ≠ k)

/-- The HashMap representation invariant: stored keys are pairwise distinct. -/
def keysNodup (m : List (String × Service)) : Prop :=
  (m.map Prod.fst).Nodup

instance (m : List (String × Service)) : Decidable (keysNodup m) := by
  unfold keysNodup; infer_instance

/-! ## JSON snapshot encoding (src/daemon.rs `Registry::save` / `Registry::load`)

`save` serializes `self.services` with `serde_json::to_string_pretty`;
`load` parses it back with `serde_json::from_str::<HashMap<String, Service>>`.
We embed the serde layer as an explicit JSON AST with an encoder and a
decoder, so that "the snapshot parses back to the mapping" is a real
statement about an inverse pair. -/

/-- A small JSON AST sufficient for the persisted registry snapshot. -/
inductive Json where
  | str (s : String)
  | num (n : Nat)
  | obj (fields : List (String × Json))
deriving Repr

/-- serde serialization of one `Service` value. -/
def encodeService (s : Service) : Json :=
  .obj [("domain", .str s.domain), ("port", .num s.port),
        ("pid", .num s.pid), ("directory", .str s.directory)]

/-- serde deserialization of one `Service` value. -/
def decodeService : Json → Option Service
  | .obj [("domain", .str d), ("port", .num p),
          ("pid", .num pid), ("directory", .str dir)] =>
      some ⟨d, p, pid, dir⟩
  | _ => none

/-- serde serialization of the whole mapping: a JSON object keyed by domain. -/
def encodeServices (m : List (String × Service)) : Json :=
  .obj (m.map (fun p => (p.1, encodeService p.2)))

/-- Decode the fields of the snapshot object back into the mapping. -/
def decodeFields : List (String × Json) → Option (List (String × Service))
  | [] => some []
  | (k, j) :: t =>
      match decodeService j, decodeFields t with
      | some s, some rest => some ((k, s) :: rest)
      | _, _ => none

/-- serde deserialization of the whole mapping. -/
def decodeServices : Json → Option (List (String × Service))
  | .obj fields => decodeFields fields
  | _ => none

/-! ## Filesystem write model (src/daemon.rs `Registry::save`)

`save` performs `std::fs::write(&path, content)`: a single direct
whole-file write.  We record the operations a save performs so that the
write pattern itself (direct write vs. temp-file-then-rename) is visible. -/

/-- Path of the persisted snapshot (`registry.json` in the state directory;
the path helper lives in `types.rs`, pinned by spec section 6). -/
def registryPath : String := "registry.json"

/-- One filesystem operation performed by persistence code. -/
inductive FsOp where
  | write (path : String) (content : Json)
  | rename (src dst : String)
deriving Repr

/-! ## Registry (src/daemon.rs lines 22-117) -/

/-- `struct Registry \x7b services: HashMap<String, Service>, next_port: u16 \x7d`. -/
structure Registry where
  services : List (String × Service)
  next_port : Nat
deriving Repr, DecidableEq

/-- `Registry::new()`: empty mapping, cursor at `PORT_RANGE_START`. -/
def Registry.new : Registry :=
  { services := [], next_port := PORT_RANGE_START }

/-- `Registry::save` (daemon.rs:58-63): one direct `std::fs::write` of the
pretty-printed mapping.  No temp file, no rename. -/
def Registry.saveOps (r : Registry) : List FsOp :=
  [.write registryPath (encodeServices r.services)]

/-- Core of `Registry::get_port` (daemon.rs:66-73) with the two range
constants abstracted: return the cursor, advance it by one (u16 wrap),
and reset it to the range start when it passed the range end.  The code
instantiates `pstart = PORT_RANGE_START`, `pend = PORT_RANGE_END`. -/
def get_port_in (pstart pend : Nat) (r : Registry) : Nat × Registry :=
  let port := r.next_port
  let np := (r.next_port + 1) % 65536
  let np := if np > pend then pstart else np
  (port, { r with next_port := np })

/-- `Registry::get_port` (daemon.rs:66-73). -/
def Registry.get_port (r : Registry) : Nat × Registry :=
  get_port_in PORT_RANGE_START PORT_RANGE_END r

/-- The maximum port of the decoded snapshot:
`services.values().map(|s| s.port).max().unwrap_or(PORT_RANGE_START - 1)`. -/
def maxPortOf (m : List (String × Service)) : Nat :=
  match (m.map (fun p => p.2.port)).max? with
  | some mx => mx
  | none => PORT_RANGE_START - 1

/-- `Registry::load` (daemon.rs:37-55), given the successfully decoded
snapshot: the cursor is `max_port + 1` (u16 arithmetic).  The code applies
no wrap-around here. -/
def Registry.loadFrom (m : List (String × Service)) : Registry :=
  { services := m, next_port := (maxPortOf m + 1) % 65536 }

/-- `Registry::register` (daemon.rs:76-79): insert under the domain key,
then save. -/
def Registry.register (r : Registry) (s : Service) : Registry × List FsOp :=
  let r' := { r with services := mapInsert r.services s.domain s }
  (r', r'.saveOps)

/-- `Registry::unregister` (daemon.rs:82-86): remove the domain key, save
unconditionally, return the removed binding. -/
def Registry.unregister (r : Registry) (d : String) :
    Option Service × Registry × List FsOp :=
  let removed := mapLookup r.services d
  let r' := { r with services := mapRemove r.services d }
  (removed, r', r'.saveOps)

/-- `Registry::get` (daemon.rs:89-91). -/
def Registry.get (r : Registry) (d : String) : Option Service :=
  mapLookup r.services d

/-- `Registry::list` (daemon.rs:94-96): the stored bindings. -/
def Registry.list (r : Registry) : List Service :=
  r.services.map Prod.snd

/-! ## Liveness (src/daemon.rs lines 99-117) -/

/-- Outcome of `libc::kill(pid, 0)` for one pid: accepted, refused with
EPERM (process exists but not signallable), or refused with ESRCH
(no such process). -/
inductive KillOutcome where
  | ok
  | eperm
  | esrch
deriving Repr, DecidableEq

/-- `is_process_alive` as written in daemon.rs:115-117:
`kill(pid, 0) == 0`.  Note: no errno inspection, so an EPERM refusal
counts as dead here. -/
def is_process_alive (env : Nat → KillOutcome) (pid : Nat) : Bool :=
  env pid = .ok

/-- `Registry::cleanup_dead` (daemon.rs:99-112): collect the domains whose
pid is not alive, remove each of them, save once. -/
def Registry.cleanup_dead (env : Nat → KillOutcome) (r : Registry) :
    Registry × List FsOp :=
  let dead := (r.services.filter
    (fun p => ! is_process_alive env p.2.pid)).map Prod.fst
  let services := dead.foldl (fun m d => mapRemove m d) r.services
  let r' := { r with services := services }
  (r', r'.saveOps)

/-! ## Control protocol (src/tests/types_tests.rs) and request handling
(src/daemon.rs lines 232-289) -/

/-- `enum Request`: the control-channel request variants handled by
`handle_request`. -/
inductive Req where
  | register (domain : String) (port pid : Nat) (directory : String)
  | unregister (domain : String)
  | getPort
  | list
  | stop (domain : String)
  | shutdown
deriving Repr, DecidableEq

/-- `enum Response`: `Ok(Option<String>)`, `Port(u16)`,
`Services(Vec<Service>)`, `Error(String)`. -/
inductive Resp where
  | ok (msg : Option String)
  | port (p : Nat)
  | services (l : List Service)
  | error (msg : String)
deriving Repr, DecidableEq

/-- The observable effect of one `handle_request` call: the response sent
back (none when the process exits instead), the new registry, the
filesystem writes of any save, the pids signalled with SIGTERM, and
whether `std::process::exit` was reached. -/
structure StepResult where
  resp : Option Resp
  reg : Registry
  fsOps : List FsOp
  sigterms : List Nat
  exited : Bool

/-- `handle_request` (daemon.rs:232-289). -/
def handle_request (req : Req) (reg : Registry) : StepResult :=
  match req with
  | .register d p pid dir =>
      if (reg.get d).isSome then
        { resp := some (.error ("Domain \x27" ++ d ++ "\x27 already registered")),
          reg := reg, fsOps := [], sigterms := [], exited := false }
      else
        let (r', ops) := reg.register ⟨d, p, pid, dir⟩
        { resp := some (.ok (some ("Registered " ++ d))),
          reg := r', fsOps := ops, sigterms := [], exited := false }
  | .unregister d =>
      let (removed, r', ops) := reg.unregister d
      match removed with
      | some _ =>
          { resp := some (.ok (some ("Unregistered " ++ d))),
            reg := r', fsOps := ops, sigterms := [], exited := false }
      | none =>
          { resp := some (.error ("Domain \x27" ++ d ++ "\x27 not found")),
            reg := r', fsOps := ops, sigterms := [], exited := false }
  | .getPort =>
      let (p, r') := reg.get_port
      { resp := some (.port p), reg := r', fsOps := [], sigterms := [],
        exited := false }
  | .list =>
      { resp := some (.services reg.list), reg := reg, fsOps := [],
        sigterms := [], exited := false }
  | .stop d =>
      let (removed, r', ops) := reg.unregister d
      match removed with
      | some svc =>
          { resp := some (.ok (some ("Stopped " ++ d))),
            reg := r', fsOps := ops, sigterms := [svc.pid], exited := false }
      | none =>
          { resp := some (.error ("Domain \x27" ++ d ++ "\x27 not found")),
            reg := r', fsOps := ops, sigterms := [], exited := false }
  | .shutdown =>
      { resp := none, reg := reg, fsOps := [], sigterms := [], exited := true }

/-- Run a sequence of control requests from a starting registry. -/
def runRequests (reqs : List Req) (reg : Registry) : Registry :=
  reqs.foldl (fun r q => (handle_request q r).reg) reg

/-! ## Daemon shutdown (src/daemon.rs `run`, lines 122-189, and the
Shutdown arm, lines 284-287)

`run` awaits `tokio::select!` over the socket task, the proxy task and
`ctrl_c`; when the select completes it removes the control socket and the
pid file (lines 185-186).  The `Shutdown` request arm instead calls
`std::process::exit(0)` inside `handle_request`, which terminates the
process at once: the select never completes and the cleanup lines never
run on that path. -/

/-- Socket and pid file names (state-directory paths from `types.rs`,
pinned by spec section 6). -/
def socketFile : String := "unport.sock"

/-- Pid file name. -/
def pidFile : String := "unport.pid"

/-- What makes the daemon terminate. -/
inductive ExitTrigger where
  | ctrlC
  | socketTaskEnd
  | proxyTaskEnd
  | shutdownRequest
deriving Repr, DecidableEq

/-- The files `run` removes before the process terminates, per exit
trigger.  The three select arms fall through to the cleanup
(daemon.rs:184-186); a `Shutdown` request exits inside `handle_request`
(daemon.rs:286) without reaching it. -/
def filesRemovedOnExit : ExitTrigger → List String
  | .ctrlC => [socketFile, pidFile]
  | .socketTaskEnd => [socketFile, pidFile]
  | .proxyTaskEnd => [socketFile, pidFile]
  | .shutdownRequest => []

/-! ## Character-level string operations

The Rust string primitives the proxy and spawner use, re-implemented by
structural recursion over the character list so that every concrete
evaluation reduces in the kernel. -/

/-- Split a character list at every occurrence of a separator character;
always returns at least one (possibly empty) piece. -/
def splitOnCharL (sep : Char) : List Char → List (List Char)
  | [] => [[]]
  | c :: t =>
      if c = sep then [] :: splitOnCharL sep t
      else
        match splitOnCharL sep t with
        | h :: r => (c :: h) :: r
        | [] => [[c]]

/-- Rust `str::starts_with`. -/
def strStartsWith (s p : String) : Bool :=
  p.data.isPrefixOf s.data

/-- Rust `str::ends_with`. -/
def strEndsWith (s p : String) : Bool :=
  p.data.reverse.isPrefixOf s.data.reverse

/-- Rust `str::to_lowercase` (ASCII suffices here). -/
def strToLower (s : String) : String :=
  ⟨s.data.map Char.toLower⟩

/-- Drop the first `n` characters (Rust byte slicing on ASCII input). -/
def strDrop (s : String) (n : Nat) : String :=
  ⟨s.data.drop n⟩

/-- Rust `str::trim`. -/
def strTrim (s : String) : String :=
  ⟨((s.data.dropWhile Char.isWhitespace).reverse.dropWhile
      Char.isWhitespace).reverse⟩

/-- Rust `str::contains` (substring test). -/
def strContains (s pat : String) : Bool :=
  go s.data pat.data
where
  go : List Char → List Char → Bool
    | l, p =>
        p.isPrefixOf l ||
          match l with
          | [] => false
          | _ :: t => go t p

/-! ## Proxy (src/proxy.rs) -/

/-- Rust `str::lines`: split on newline, drop a final empty piece, strip a
trailing carriage return from each line. -/
def rustLines (s : String) : List String :=
  let parts := splitOnCharL '\n' s.data
  let parts := match parts.getLast? with
    | some [] => parts.dropLast
    | _ => parts
  parts.map (fun l => ⟨if l.getLast? = some '\r' then l.dropLast else l⟩)

/-- `extract_host_from_headers` (proxy.rs:92-100): first line whose
lowercasing starts with "host:", value is the rest of that line trimmed
(original casing preserved). -/
def extract_host_from_headers (headers : String) : Option String :=
  (rustLines headers).findSome? (fun line =>
    if strStartsWith (strToLower line) "host:" then
      some (strTrim (strDrop line 5))
    else none)

/-- `host.split(':').next().unwrap_or(&host)` (proxy.rs:55 and 148):
strip any `:port` suffix from the Host value. -/
def stripPort (host : String) : String :=
  ⟨host.data.takeWhile (fun c => c ≠ ':')⟩

/-- Websocket-upgrade detection (proxy.rs:50-51). -/
def isWebsocketReq (peek : String) : Bool :=
  strContains peek "Upgrade: websocket" || strContains peek "upgrade: websocket"

/-- The routing outcome of one proxied connection or request. -/
inductive ProxyAction where
  /-- Known domain, websocket: raw TCP tunnel to the backend port. -/
  | wsTunnel (backendPort : Nat)
  /-- Unknown domain, websocket: bare `HTTP/1.1 404` with `Content-Length: 0`. -/
  | wsNotFound
  /-- Known domain, plain HTTP: forward to the backend port. -/
  | forward (backendPort : Nat)
  /-- Kill endpoint hit and domain found: `200` with body `\x7b"ok":true\x7d`. -/
  | killOk
  /-- Kill endpoint hit, domain not registered: `404` with body
  `\x7b"error":"not found"\x7d`. -/
  | killNotFound
  /-- Status page: `200 text/html` dashboard over the listed services. -/
  | dashboard (services : List Service)
  /-- Unknown non-local domain: `404 text/plain` listing the services. -/
  | notFoundList (domain : String) (services : List Service)
deriving Repr, DecidableEq

/-- HTTP status produced by the terminal proxy actions. -/
def ProxyAction.status : ProxyAction → Option Nat
  | .wsTunnel _ => none
  | .forward _ => none
  | .wsNotFound => some 404
  | .killOk => some 200
  | .killNotFound => some 404
  | .dashboard _ => some 200
  | .notFoundList _ _ => some 404

/-- Body of the kill-endpoint success response (proxy.rs:188). -/
def killOkBody : String := "\x7b\"ok\":true\x7d"

/-- Body of the kill-endpoint failure response (proxy.rs:194). -/
def killNotFoundBody : String := "\x7b\"error\":\"not found\"\x7d"

/-- Body of the unknown-domain 404 (proxy.rs:209-225). -/
def notFoundBody (domain : String) (services : List Service) : String :=
  let available := String.intercalate "\n"
    (services.map (fun s => "  - http://" ++ s.domain))
  "unport: Domain \x27" ++ domain ++ "\x27 not found.\n\nAvailable services:\n"
    ++ (if available = "" then "  (none)" else available)

/-- `handle_http_request` (proxy.rs:135-235).  `method` is carried because
the claim set asks about it: the code never inspects `req.method()`.
Returns the action, the registry after any kill, and the pids SIGTERMed. -/
def handle_http_request (method : String) (host : String) (path : String)
    (reg : Registry) : ProxyAction × Registry × List Nat :=
  let _ := method
  let domain := stripPort host
  match mapLookup reg.services domain with
  | some s => (.forward s.port, reg, [])
  | none =>
      if domain = "localhost" ∨ domain = "127.0.0.1" then
        if strStartsWith path "/api/kill/" then
          let target := strDrop path 10
          if target ≠ "" then
            let (removed, r', _) := reg.unregister target
            match removed with
            | some svc => (.killOk, r', [svc.pid])
            | none => (.killNotFound, r', [])
          else
            (.dashboard reg.list, reg, [])
        else
          (.dashboard reg.list, reg, [])
      else
        (.notFoundList domain reg.list, reg, [])

/-- `handle_connection` (proxy.rs:42-89): peek the initial bytes, detect a
websocket upgrade, extract the Host, strip the port, resolve the backend;
websocket connections with no backend get the bare 404, everything else
goes through `handle_http_request`. -/
def handle_connection (peek : String) (method : String) (path : String)
    (reg : Registry) : ProxyAction × Registry × List Nat :=
  let header_str := peek
  let is_websocket := isWebsocketReq header_str
  let host := (extract_host_from_headers header_str).getD ""
  let domain := stripPort host
  let port := (mapLookup reg.services domain).map (fun s => s.port)
  if is_websocket then
    match port with
    | some p => (.wsTunnel p, reg, [])
    | none => (.wsNotFound, reg, [])
  else
    handle_http_request method host path reg

/-! ## Client spawning (src/client.rs lines 30-113, src/process.rs) -/

/-- `enum PortStrategy` (src/detect.rs). -/
inductive PortStrategy where
  | envVar (name : String)
  | cliFlag (flag : String)
deriving Repr, DecidableEq

/-- The project configuration fields the spawning path reads
(src/config.rs). -/
structure Config where
  domain : String
  start : Option String
  port_env : Option String
  port_arg : Option String
deriving Repr, DecidableEq

/-- Observable shape of the spawned child process. -/
structure SpawnedChild where
  program : String
  args : List String
  envs : List (String × String)
deriving Repr, DecidableEq

/-- `spawn_app` (src/process.rs:7-56): split the command, then inject the
port.  The match on `(port_env_override, port_arg_override)` takes the env
override first, the arg override second, and only then the detected
strategy. -/
def spawn_app (command : String) (port : Nat) (strategy : PortStrategy)
    (port_env_override port_arg_override : Option String) :
    Option SpawnedChild :=
  let parts : List String :=
    ((splitOnCharL ' ' command.data).map (fun l => (⟨l⟩ : String))).filter
      (fun s => s ≠ "")
  match parts with
  | [] => none
  | program :: args =>
      some (match port_env_override, port_arg_override with
        | some envVar, _ =>
            { program := program, args := args,
              envs := [(envVar, toString port)] }
        | _, some arg =>
            { program := program, args := args ++ [arg, toString port],
              envs := [] }
        | none, none =>
            match strategy with
            | .envVar v =>
                { program := program, args := args,
                  envs := [(v, toString port)] }
            | .cliFlag flag =>
                if strEndsWith flag ":" then
                  { program := program,
                    args := args ++ [flag ++ toString port], envs := [] }
                else
                  { program := program,
                    args := args ++ [flag, toString port], envs := [] })

/-- The strategy choice in `client::start` (client.rs:55-61):
`port_arg` first, then `port_env`, then the detection result. -/
def choosePortStrategy (cfg : Config) (detected : PortStrategy) :
    PortStrategy :=
  match cfg.port_arg with
  | some a => .cliFlag a
  | none =>
      match cfg.port_env with
      | some e => .envVar e
      | none => detected

/-- The client spawning pipeline (client.rs:55-75): compute the strategy,
then call `spawn_app` with both config overrides passed through. -/
def clientSpawn (cfg : Config) (detectedCmd : String)
    (detected : PortStrategy) (port : Nat) : Option SpawnedChild :=
  let start_command := cfg.start.getD detectedCmd
  let strategy := choosePortStrategy cfg detected
  spawn_app start_command port strategy cfg.port_env cfg.port_arg

/-! ## Concrete scenario and refinement comparisons -/

/-- The claim C1 scenario, realized through the code's own operations with
the claim's constants `PORT_MIN = 4000`, `PORT_MAX = 4002`: allocate and
register ports 4000, 4001, 4002 from a fresh registry, unregister the
service on 4001, then ask for the next port. -/
def scenarioC1 : Nat :=
  let r0 : Registry := { services := [], next_port := 4000 }
  let s1 := get_port_in 4000 4002 r0
  let r2 := (s1.2.register ⟨"a.localhost", s1.1, 11, "/a"⟩).1
  let s2 := get_port_in 4000 4002 r2
  let r4 := (s2.2.register ⟨"b.localhost", s2.1, 12, "/b"⟩).1
  let s3 := get_port_in 4000 4002 r4
  let r6 := (s3.2.register ⟨"c.localhost", s3.1, 13, "/c"⟩).1
  let r7 := (r6.unregister "b.localhost").2.1
  (get_port_in 4000 4002 r7).1

/-- Modelled from the spec: the atomic persistence pattern the spec
requires of a snapshot write — write the content to a temporary file and
then rename it over the snapshot path ("atomic write then rename",
"write temp + rename").  Used only to compare the code's actual write
pattern against the spec's words. -/
def isAtomicTempRename : List FsOp → Bool
  | [.write tmp _, .rename src dst] =>
      src = tmp && dst = registryPath && tmp ≠ registryPath
  | _ => false

/-- The response body carried by each terminal proxy action. -/
def ProxyAction.bodyOf : ProxyAction → Option String
  | .wsTunnel _ => none
  | .forward _ => none
  | .wsNotFound => some ""
  | .killOk => some killOkBody
  | .killNotFound => some killNotFoundBody
  | .dashboard _ => none
  | .notFoundList d l => some (notFoundBody d l)


/-! ## Helper lemmas -/

theorem mapLookup_eq_none_iff (m : List (String × Service)) (d : String) :
    mapLookup m d = none ↔ d ∉ m.map Prod.fst := by
  induction m with
  | nil => simp [mapLookup]
  | cons p t ih =>
      obtain ⟨k, v⟩ := p
      by_cases hk : k = d
      · subst hk; simp [mapLookup]
      · simp [mapLookup, hk, ih, Ne.symm hk]

theorem mapLookup_append_single (m : List (String × Service)) (k : String)
    (v : Service) (h : mapLookup m k = none) :
    mapLookup (m ++ [(k, v)]) k = some v := by
  induction m with
  | nil => simp [mapLookup]
  | cons p t ih =>
      obtain ⟨k1, v1⟩ := p
      by_cases hk : k1 = k
      · subst hk; simp [mapLookup] at h
      · simp [mapLookup, hk] at h ⊢
        exact ih h

theorem mapInsert_of_none (m : List (String × Service)) (k : String)
    (v : Service) (h : mapLookup m k = none) :
    mapInsert m k v = m ++ [(k, v)] := by
  simp [mapInsert, h]

theorem mapLookup_mapRemove_self (m : List (String × Service)) (d : String) :
    mapLookup (mapRemove m d) d = none := by
  induction m with
  | nil => simp [mapRemove, mapLookup]
  | cons p t ih =>
      obtain ⟨k, v⟩ := p
      by_cases hk : k = d
      · subst hk; simpa [mapRemove, mapLookup] using ih
      · simpa [mapRemove, mapLookup, hk] using ih

theorem keysNodup_filter (m : List (String × Service))
    (p : String × Service → Bool) (h : keysNodup m) :
    keysNodup (m.filter p) := by
  unfold keysNodup at *
  exact h.sublist ((List.filter_sublist m).map Prod.fst)

theorem keysNodup_mapRemove (m : List (String × Service)) (d : String)
    (h : keysNodup m) : keysNodup (mapRemove m d) :=
  keysNodup_filter m _ h

theorem keysNodup_append_single (m : List (String × Service)) (k : String)
    (v : Service) (h : keysNodup m) (hk : mapLookup m k = none) :
    keysNodup (m ++ [(k, v)]) := by
  unfold keysNodup at *
  rw [List.map_append]
  rw [mapLookup_eq_none_iff] at hk
  simp [List.nodup_append, h, hk]

theorem foldl_mapRemove_eq_filter (dead : List String)
    (m : List (String × Service)) :
    dead.foldl (fun m d => mapRemove m d) m =
      m.filter (fun p => decide (p.1 ∉ dead)) := by
  induction dead generalizing m with
  | nil => simp
  | cons d t ih =>
      rw [List.foldl_cons, ih, mapRemove, List.filter_filter]
      congr 1
      funext p
      by_cases h1 : p.1 = d <;> by_cases h2 : p.1 ∈ t <;>
        simp [h1, h2]

theorem mapLookup_filter_key (m : List (String × Service))
    (q : String → Bool) (d : String) :
    mapLookup (m.filter (fun p => q p.1)) d =
      if q d then mapLookup m d else none := by
  induction m with
  | nil => simp [mapLookup]
  | cons p t ih =>
      obtain ⟨k, v⟩ := p
      by_cases hk : k = d
      · subst hk
        by_cases hq : q k <;> simp [mapLookup, hq, ih]
      · by_cases hq : q k <;> simp [mapLookup, hq, hk, ih]

theorem mem_keys_filter (m : List (String × Service))
    (p : String × Service → Bool) (d : String) :
    d ∈ (m.filter p).map Prod.fst ↔ ∃ s, (d, s) ∈ m ∧ p (d, s) := by
  simp only [List.mem_map, List.mem_filter]
  constructor
  · rintro ⟨⟨k, s⟩, ⟨hm, hp⟩, hk⟩
    exact ⟨s, by simpa [← hk] using hm, by simpa [← hk] using hp⟩
  · rintro ⟨s, hm, hp⟩
    exact ⟨(d, s), ⟨hm, hp⟩, rfl⟩

theorem mem_iff_mapLookup (m : List (String × Service)) (d : String)
    (s : Service) (h : keysNodup m) :
    (d, s) ∈ m ↔ mapLookup m d = some s := by
  induction m with
  | nil => simp [mapLookup]
  | cons p t ih =>
      obtain ⟨k, v⟩ := p
      have ht : keysNodup t := by
        unfold keysNodup at h ⊢
        exact (List.nodup_cons.mp (by simpa using h)).2
      by_cases hk : k = d
      · subst hk
        have hnot : k ∉ t.map Prod.fst := by
          unfold keysNodup at h
          exact (List.nodup_cons.mp (by simpa using h)).1
        rw [show mapLookup ((k, v) :: t) k = some v by simp [mapLookup]]
        simp only [List.mem_cons, Option.some.injEq, Prod.mk.injEq]
        constructor
        · rintro (⟨h1, h2⟩ | hmem)
          · exact h2.symm
          · exact absurd (List.mem_map_of_mem Prod.fst hmem) hnot
        · rintro rfl; exact Or.inl ⟨trivial, rfl⟩
      · simp only [mapLookup, if_neg hk, List.mem_cons, Prod.mk.injEq]
        rw [← ih ht]
        constructor
        · rintro (⟨h1, h2⟩ | hmem)
          · exact absurd h1.symm hk
          · exact hmem
        · exact Or.inr
theorem mapLookup_filter_notdead (m : List (String × Service))
    (dead : List String) (d : String) :
    mapLookup (m.filter (fun p => decide (p.1 ∉ dead))) d =
      if decide (d ∉ dead) then mapLookup m d else none :=
  mapLookup_filter_key m (fun k => decide (k ∉ dead)) d

theorem cleanup_dead_lookup (env : Nat → KillOutcome) (r : Registry)
    (d : String) (h : keysNodup r.services) :
    mapLookup (Registry.cleanup_dead env r).1.services d =
      match mapLookup r.services d with
      | some s => if is_process_alive env s.pid then some s else none
      | none => none := by
  unfold Registry.cleanup_dead
  simp only
  rw [foldl_mapRemove_eq_filter, mapLookup_filter_notdead]
  cases hl : mapLookup r.services d with
  | none =>
      simp only
      have hkeys : d ∉ r.services.map Prod.fst :=
        (mapLookup_eq_none_iff _ _).mp hl
      have hdead :
          d ∉ (r.services.filter
            (fun p => ! is_process_alive env p.2.pid)).map Prod.fst := by
        intro hmem
        obtain ⟨s, hm, _⟩ := (mem_keys_filter _ _ _).mp hmem
        exact hkeys (List.mem_map_of_mem Prod.fst hm)
      rw [if_pos (by simpa using hdead)]
  | some s =>
      simp only
      by_cases ha : is_process_alive env s.pid
      · have hdead :
            d ∉ (r.services.filter
              (fun p => ! is_process_alive env p.2.pid)).map Prod.fst := by
          intro hmem
          obtain ⟨s2, hm, hp⟩ := (mem_keys_filter _ _ _).mp hmem
          have : s2 = s := by
            have := (mem_iff_mapLookup _ _ _ h).mp hm
            rw [hl] at this
            exact (Option.some.inj this).symm
          subst this
          simp [ha] at hp
        rw [if_pos (by simpa using hdead), if_pos ha]
      · have hdead :
            d ∈ (r.services.filter
              (fun p => ! is_process_alive env p.2.pid)).map Prod.fst := by
          refine (mem_keys_filter _ _ _).mpr ⟨s, ?_, ?_⟩
          · exact (mem_iff_mapLookup _ _ _ h).mpr hl
          · simpa using ha
        rw [if_neg (by simpa using hdead), if_neg ha]
theorem decodeService_encodeService (s : Service) :
    decodeService (encodeService s) = some s := by
  cases s; rfl

theorem decodeFields_encode (m : List (String × Service)) :
    decodeFields (m.map (fun p => (p.1, encodeService p.2))) = some m := by
  induction m with
  | nil => rfl
  | cons p t ih =>
      obtain ⟨k, v⟩ := p
      simp [decodeFields, decodeService_encodeService, ih]

theorem decodeServices_encodeServices (m : List (String × Service)) :
    decodeServices (encodeServices m) = some m := by
  simp [decodeServices, encodeServices, decodeFields_encode]

theorem get_port_in_range (r : Registry)
    (h1 : PORT_RANGE_START ≤ r.next_port) (h2 : r.next_port ≤ PORT_RANGE_END) :
    PORT_RANGE_START ≤ r.get_port.1 ∧ r.get_port.1 ≤ PORT_RANGE_END ∧
    PORT_RANGE_START ≤ r.get_port.2.next_port ∧
    r.get_port.2.next_port ≤ PORT_RANGE_END := by
  simp only [Registry.get_port, get_port_in, PORT_RANGE_START,
    PORT_RANGE_END] at *
  have hm : (r.next_port + 1) % 65536 = r.next_port + 1 :=
    Nat.mod_eq_of_lt (by omega)
  rw [hm]
  split <;> omega

theorem handle_request_next_port_range (req : Req) (r : Registry)
    (h1 : PORT_RANGE_START ≤ r.next_port) (h2 : r.next_port ≤ PORT_RANGE_END) :
    PORT_RANGE_START ≤ (handle_request req r).reg.next_port ∧
    (handle_request req r).reg.next_port ≤ PORT_RANGE_END := by
  cases req with
  | register d p pid dir =>
      by_cases hg : (r.get d).isSome
      · simp only [handle_request, hg, if_true]; exact ⟨h1, h2⟩
      · simp only [handle_request, hg, if_false, Bool.false_eq_true,
          not_false_eq_true, Registry.register]
        exact ⟨h1, h2⟩
  | unregister d =>
      cases hl : mapLookup r.services d <;>
        simp only [handle_request, Registry.unregister, hl] <;>
        exact ⟨h1, h2⟩
  | getPort =>
      have := get_port_in_range r h1 h2
      simp only [handle_request]
      exact ⟨this.2.2.1, this.2.2.2⟩
  | list => exact ⟨h1, h2⟩
  | stop d =>
      cases hl : mapLookup r.services d <;>
        simp only [handle_request, Registry.unregister, hl] <;>
        exact ⟨h1, h2⟩
  | shutdown => exact ⟨h1, h2⟩

theorem runRequests_next_port_range (reqs : List Req) (r : Registry)
    (h1 : PORT_RANGE_START ≤ r.next_port) (h2 : r.next_port ≤ PORT_RANGE_END) :
    PORT_RANGE_START ≤ (runRequests reqs r).next_port ∧
    (runRequests reqs r).next_port ≤ PORT_RANGE_END := by
  induction reqs generalizing r with
  | nil => exact ⟨h1, h2⟩
  | cons q t ih =>
      have := handle_request_next_port_range q r h1 h2
      simpa [runRequests, List.foldl_cons] using
        ih (handle_request q r).reg this.1 this.2

theorem handle_request_keysNodup (req : Req) (r : Registry)
    (h : keysNodup r.services) :
    keysNodup (handle_request req r).reg.services := by
  cases req with
  | register d p pid dir =>
      by_cases hg : (r.get d).isSome
      · simpa [handle_request, hg] using h
      · have hnone : mapLookup r.services d = none := by
          unfold Registry.get at hg
          cases hl : mapLookup r.services d
          · rfl
          · rw [hl] at hg; simp at hg
        simp only [handle_request, hg, if_neg, Bool.false_eq_true,
          not_false_eq_true, Registry.register]
        simp only [mapInsert_of_none _ _ _ hnone]
        exact keysNodup_append_single _ _ _ h hnone
  | unregister d =>
      cases hl : mapLookup r.services d <;>
        simp only [handle_request, Registry.unregister, hl] <;>
        exact keysNodup_mapRemove _ _ h
  | getPort => simpa [handle_request, Registry.get_port, get_port_in] using h
  | list => simpa [handle_request] using h
  | stop d =>
      cases hl : mapLookup r.services d <;>
        simp only [handle_request, Registry.unregister, hl] <;>
        exact keysNodup_mapRemove _ _ h
  | shutdown => simpa [handle_request] using h

theorem runRequests_keysNodup (reqs : List Req) (r : Registry)
    (h : keysNodup r.services) :
    keysNodup (runRequests reqs r).services := by
  induction reqs generalizing r with
  | nil => exact h
  | cons q t ih =>
      simpa [runRequests, List.foldl_cons] using
        ih (handle_request q r).reg (handle_request_keysNodup q r h)

/-! ## Claim theorems -/

/-- Claim C1, counterexample: in the claimed scenario (PORT_MIN = 4000,
PORT_MAX = 4002, bindings allocated on 4000, 4001, 4002, then the service
on 4001 unregistered) the next GetPort returns 4000, not the claimed 4001:
the code does no bindability probing. -/
theorem C1_counterexample : scenarioC1 = 4000 ∧ scenarioC1 ≠ 4001 := by
  decide

/-- Claim C1, amended: Registry::get_port returns the current cursor and
advances it by one, wrapping to the range start once the incremented
cursor passes the range end.  The result depends only on the cursor, never
on which ports are bound, and in the claimed scenario the next GetPort
returns 4000. -/
theorem C1_theorem :
    (∀ a b : Nat, ∀ r₁ r₂ : Registry, r₁.next_port = r₂.next_port →
      (get_port_in a b r₁).1 = (get_port_in a b r₂).1) ∧
    (∀ a b : Nat, ∀ r : Registry, (get_port_in a b r).1 = r.next_port) ∧
    (∀ a b : Nat, ∀ r : Registry,
      (get_port_in a b r).2.services = r.services) ∧
    (∀ a b : Nat, ∀ r : Registry, (get_port_in a b r).2.next_port =
      if (r.next_port + 1) % 65536 > b then a else (r.next_port + 1) % 65536) ∧
    scenarioC1 = 4000 := by
  refine ⟨?_, ?_, ?_, ?_, by decide⟩
  · intro a b r₁ r₂ h
    simp [get_port_in, h]
  · intro a b r; rfl
  · intro a b r; simp [get_port_in]
  · intro a b r; rfl

/-- Claim C1, witness for the amended theorem: the allocated port is
independent of the stored bindings at a concrete cursor. -/
theorem C1_witness :
    (get_port_in 4000 4002 ⟨[], 4000⟩).1 =
      (get_port_in 4000 4002
        ⟨[("x.localhost", ⟨"x.localhost", 4000, 1, "/x"⟩)], 4000⟩).1 :=
  C1_theorem.1 4000 4002 _ _ rfl

/-- Claim C2, counterexample: Registry::load derives the cursor as
max_port + 1 without wrapping, so loading a snapshot holding port 5000
makes the next get_port return 5001, outside [4000, 5000]. -/
theorem C2_counterexample :
    ((Registry.loadFrom
      [("a.localhost", ⟨"a.localhost", 5000, 1, "/a"⟩)]).get_port).1 = 5001 ∧
    ¬ ((Registry.loadFrom
      [("a.localhost", ⟨"a.localhost", 5000, 1, "/a"⟩)]).get_port).1
        ≤ PORT_RANGE_END := by
  decide

/-- Claim C2, amended: get_port returns a value in
[PORT_RANGE_START, PORT_RANGE_END] from every state whose cursor is in
that range — in particular from every state reachable by control requests
from Registry::new — and from a loaded snapshot whose maximum port lies in
[PORT_RANGE_START - 1, PORT_RANGE_END - 1].  (load itself applies no wrap,
so a snapshot holding PORT_RANGE_END breaks the bound.) -/
theorem C2_theorem :
    (∀ r : Registry,
      PORT_RANGE_START ≤ r.next_port → r.next_port ≤ PORT_RANGE_END →
      PORT_RANGE_START ≤ r.get_port.1 ∧ r.get_port.1 ≤ PORT_RANGE_END ∧
      PORT_RANGE_START ≤ r.get_port.2.next_port ∧
      r.get_port.2.next_port ≤ PORT_RANGE_END) ∧
    (∀ reqs : List Req,
      PORT_RANGE_START ≤ ((runRequests reqs Registry.new).get_port).1 ∧
      ((runRequests reqs Registry.new).get_port).1 ≤ PORT_RANGE_END) ∧
    (∀ m : List (String × Service),
      PORT_RANGE_START - 1 ≤ maxPortOf m → maxPortOf m < PORT_RANGE_END →
      PORT_RANGE_START ≤ ((Registry.loadFrom m).get_port).1 ∧
      ((Registry.loadFrom m).get_port).1 ≤ PORT_RANGE_END) := by
  refine ⟨get_port_in_range, ?_, ?_⟩
  · intro reqs
    have h0 : PORT_RANGE_START ≤ Registry.new.next_port ∧
        Registry.new.next_port ≤ PORT_RANGE_END := by
      constructor <;> simp [Registry.new, PORT_RANGE_START, PORT_RANGE_END]
    have hr := runRequests_next_port_range reqs Registry.new h0.1 h0.2
    have := get_port_in_range (runRequests reqs Registry.new) hr.1 hr.2
    exact ⟨this.1, this.2.1⟩
  · intro m hlo hhi
    have hcur : (Registry.loadFrom m).next_port = maxPortOf m + 1 := by
      simp only [Registry.loadFrom]
      exact Nat.mod_eq_of_lt (by
        simp only [PORT_RANGE_END] at hhi; omega)
    have h1 : PORT_RANGE_START ≤ (Registry.loadFrom m).next_port := by
      rw [hcur]; simp only [PORT_RANGE_START, PORT_RANGE_END] at *; omega
    have h2 : (Registry.loadFrom m).next_port ≤ PORT_RANGE_END := by
      rw [hcur]; simp only [PORT_RANGE_START, PORT_RANGE_END] at *; omega
    have := get_port_in_range _ h1 h2
    exact ⟨this.1, this.2.1⟩

/-- Claim C2, witness: the bound at a concrete in-range state, a concrete
request sequence, and a concrete loadable snapshot. -/
theorem C2_witness :
    (PORT_RANGE_START ≤ (Registry.new.get_port).1 ∧
      (Registry.new.get_port).1 ≤ PORT_RANGE_END ∧
      PORT_RANGE_START ≤ (Registry.new.get_port).2.next_port ∧
      (Registry.new.get_port).2.next_port ≤ PORT_RANGE_END) ∧
    (PORT_RANGE_START ≤
      ((Registry.loadFrom
        [("a.localhost", ⟨"a.localhost", 4999, 1, "/a"⟩)]).get_port).1 ∧
      ((Registry.loadFrom
        [("a.localhost", ⟨"a.localhost", 4999, 1, "/a"⟩)]).get_port).1
        ≤ PORT_RANGE_END) :=
  ⟨C2_theorem.1 Registry.new (by decide) (by decide),
   C2_theorem.2.2 _ (by decide) (by decide)⟩

/-- Claim C3, counterexample: a binding whose pid reports EPERM on
signal 0 — a live but not-signallable process, which the claim requires to
be preserved — is removed by cleanup_dead, because is_process_alive in
daemon.rs tests only kill(pid, 0) == 0 and never inspects errno. -/
theorem C3_counterexample :
    (Registry.cleanup_dead (fun _ => KillOutcome.eperm)
      ⟨[("api.localhost", ⟨"api.localhost", 4000, 42, "/a"⟩)],
        4001⟩).1.services = [] ∧
    KillOutcome.eperm ≠ KillOutcome.esrch := by
  decide

/-- Claim C3, amended: cleanup_dead removes exactly the bindings whose pid
fails the kill(pid, 0) == 0 test — so both "no such process" (ESRCH) and
"exists but not permitted" (EPERM) bindings are removed — and preserves
exactly those whose signal is accepted. -/
theorem C3_theorem : ∀ (env : Nat → KillOutcome) (r : Registry) (d : String),
    keysNodup r.services →
    mapLookup (Registry.cleanup_dead env r).1.services d =
      match mapLookup r.services d with
      | some s => if is_process_alive env s.pid then some s else none
      | none => none :=
  fun env r d h => cleanup_dead_lookup env r d h

/-- Claim C3, witness: at a concrete registry, the ok-pid binding survives
and the esrch-pid binding is removed. -/
theorem C3_witness :
    mapLookup (Registry.cleanup_dead
      (fun pid => if pid = 42 then KillOutcome.ok else KillOutcome.esrch)
      ⟨[("api.localhost", ⟨"api.localhost", 4000, 42, "/a"⟩),
        ("web.localhost", ⟨"web.localhost", 4001, 43, "/w"⟩)],
        4002⟩).1.services "web.localhost" = none := by
  rw [C3_theorem (fun pid => if pid = 42 then KillOutcome.ok
    else KillOutcome.esrch)
    ⟨[("api.localhost", ⟨"api.localhost", 4000, 42, "/a"⟩),
      ("web.localhost", ⟨"web.localhost", 4001, 43, "/w"⟩)], 4002⟩
    "web.localhost" (by decide)]
  decide

/-- Claim C4: registering an already-present domain yields an Error
response and leaves the registry untouched; registering a fresh domain
answers Ok, makes the binding visible, and emits the save of the new
mapping; and every sequence of control requests preserves the
at-most-once key invariant of the mapping. -/
theorem C4_theorem :
    (∀ (reg : Registry) (d : String) (p pid : Nat) (dir : String)
      (s : Service), mapLookup reg.services d = some s →
      (handle_request (.register d p pid dir) reg).reg = reg ∧
      (handle_request (.register d p pid dir) reg).resp =
        some (.error ("Domain \x27" ++ d ++ "\x27 already registered"))) ∧
    (∀ (reg : Registry) (d : String) (p pid : Nat) (dir : String),
      mapLookup reg.services d = none →
      (handle_request (.register d p pid dir) reg).resp =
        some (.ok (some ("Registered " ++ d))) ∧
      mapLookup (handle_request (.register d p pid dir) reg).reg.services d =
        some ⟨d, p, pid, dir⟩ ∧
      (handle_request (.register d p pid dir) reg).fsOps =
        (handle_request (.register d p pid dir) reg).reg.saveOps) ∧
    (∀ (reqs : List Req) (reg : Registry), keysNodup reg.services →
      keysNodup (runRequests reqs reg).services) := by
  refine ⟨?_, ?_, runRequests_keysNodup⟩
  · intro reg d p pid dir s h
    have hg : (reg.get d).isSome := by simp [Registry.get, h]
    constructor <;> simp [handle_request, hg]
  · intro reg d p pid dir h
    have hg : ¬ (reg.get d).isSome := by simp [Registry.get, h]
    refine ⟨by simp [handle_request, hg], ?_, ?_⟩
    · simp only [handle_request, hg, if_neg, Bool.false_eq_true,
        not_false_eq_true, Registry.register]
      rw [mapInsert_of_none _ _ _ h]
      exact mapLookup_append_single _ _ _ h
    · simp [handle_request, hg, Registry.register]

/-- Claim C4, witness: a concrete duplicate register is rejected
unchanged, a concrete fresh register becomes visible, and a concrete
request sequence keeps keys unique. -/
theorem C4_witness :
    ((handle_request (.register "api.localhost" 4001 43 "/b")
        ⟨[("api.localhost", ⟨"api.localhost", 4000, 42, "/a"⟩)], 4001⟩).reg =
      ⟨[("api.localhost", ⟨"api.localhost", 4000, 42, "/a"⟩)], 4001⟩) ∧
    (mapLookup (handle_request (.register "web.localhost" 4000 42 "/w")
        Registry.new).reg.services "web.localhost" =
      some ⟨"web.localhost", 4000, 42, "/w"⟩) ∧
    keysNodup (runRequests
      [.register "a.localhost" 4000 1 "/a", .register "a.localhost" 4001 2 "/b",
       .stop "a.localhost"] Registry.new).services :=
  ⟨(C4_theorem.1 _ "api.localhost" 4001 43 "/b"
      ⟨"api.localhost", 4000, 42, "/a"⟩ (by decide)).1,
   (C4_theorem.2.1 Registry.new "web.localhost" 4000 42 "/w" (by decide)).2.1,
   C4_theorem.2.2 _ Registry.new (by decide)⟩

/-- Claim C5, counterexample: the save performed by a successful register
is a single direct whole-file write — not the claimed atomic
write-temp-file-then-rename pattern. -/
theorem C5_counterexample :
    (Registry.new.register ⟨"api.localhost", 4000, 42, "/a"⟩).2 =
      [FsOp.write registryPath (encodeServices
        [("api.localhost", ⟨"api.localhost", 4000, 42, "/a"⟩)])] ∧
    isAtomicTempRename
      (Registry.new.register ⟨"api.localhost", 4000, 42, "/a"⟩).2 = false :=
  ⟨rfl, rfl⟩

/-- Claim C5, amended: every successful mutation (register, unregister,
cleanup_dead) performs exactly one direct write of the serialized mapping
to the snapshot path, and that serialized snapshot parses back to exactly
the in-memory mapping; no temp-file-and-rename atomicity is provided. -/
theorem C5_theorem :
    (∀ (r : Registry) (s : Service),
      (r.register s).2 =
        [FsOp.write registryPath (encodeServices (r.register s).1.services)] ∧
      decodeServices (encodeServices (r.register s).1.services) =
        some (r.register s).1.services) ∧
    (∀ (r : Registry) (d : String),
      (r.unregister d).2.2 =
        [FsOp.write registryPath
          (encodeServices (r.unregister d).2.1.services)] ∧
      decodeServices (encodeServices (r.unregister d).2.1.services) =
        some (r.unregister d).2.1.services) ∧
    (∀ (env : Nat → KillOutcome) (r : Registry),
      (Registry.cleanup_dead env r).2 =
        [FsOp.write registryPath
          (encodeServices (Registry.cleanup_dead env r).1.services)] ∧
      decodeServices (encodeServices (Registry.cleanup_dead env r).1.services) =
        some (Registry.cleanup_dead env r).1.services) :=
  ⟨fun _ _ => ⟨rfl, decodeServices_encodeServices _⟩,
   fun _ _ => ⟨rfl, decodeServices_encodeServices _⟩,
   fun _ _ => ⟨rfl, decodeServices_encodeServices _⟩⟩

/-- Claim C6, counterexample: with api.localhost registered, a request
whose Host is API.localhost is not routed to that binding — the domain
lookup is an exact, case-sensitive HashMap lookup — so it falls into the
unknown-domain 404 instead of being forwarded. -/
theorem C6_counterexample :
    (handle_http_request "GET" "API.localhost" "/"
      ⟨[("api.localhost", ⟨"api.localhost", 4000, 42, "/a"⟩)], 4001⟩).1 =
      ProxyAction.notFoundList "API.localhost"
        [⟨"api.localhost", 4000, 42, "/a"⟩] ∧
    ProxyAction.notFoundList "API.localhost"
        [⟨"api.localhost", 4000, 42, "/a"⟩] ≠
      ProxyAction.forward 4000 := by
  decide

/-- Claim C6, amended: the routing domain is the Host header value with
any colon-port suffix stripped; the Host header NAME is matched
case-insensitively when scanning the raw headers, but the backend is then
chosen by an exact, case-sensitive match of the routing domain against the
registered domains. -/
theorem C6_theorem :
    (∀ (m host path : String) (reg : Registry) (s : Service),
      mapLookup reg.services (stripPort host) = some s →
      (handle_http_request m host path reg).1 = ProxyAction.forward s.port) ∧
    extract_host_from_headers
      "GET / HTTP/1.1\r\nHOST: api.localhost:8080\r\nAccept: text/html\r\n\r\n"
      = some "api.localhost:8080" ∧
    stripPort "api.localhost:8080" = "api.localhost" ∧
    mapLookup [("api.localhost", ⟨"api.localhost", 4000, 42, "/a"⟩)]
      "api.localhost" = some ⟨"api.localhost", 4000, 42, "/a"⟩ ∧
    mapLookup [("api.localhost", ⟨"api.localhost", 4000, 42, "/a"⟩)]
      "API.localhost" = none := by
  refine ⟨?_, by decide, by decide, by decide, by decide⟩
  intro m host path reg s h
  simp [handle_http_request, h]

/-- Claim C6, witness: a concrete registered domain with a port-suffixed
Host is forwarded to its backend port. -/
theorem C6_witness :
    (handle_http_request "GET" "api.localhost:80" "/"
      ⟨[("api.localhost", ⟨"api.localhost", 4000, 42, "/a"⟩)], 4001⟩).1 =
      ProxyAction.forward 4000 :=
  C6_theorem.1 "GET" "api.localhost:80" "/" _
    ⟨"api.localhost", 4000, 42, "/a"⟩ (by decide)

/-- Claim C7, counterexample: a WebSocket-upgrade connection whose Host is
the unregistered domain localhost receives the bare empty 404, not the
built-in status page the claim requires. -/
theorem C7_counterexample :
    (handle_connection
      "GET / HTTP/1.1\r\nHost: localhost\r\nUpgrade: websocket\r\n\r\n"
      "GET" "/" ⟨[], 4000⟩).1 = ProxyAction.wsNotFound ∧
    ProxyAction.wsNotFound ≠ ProxyAction.dashboard (Registry.mk [] 4000).list := by
  decide

/-- Claim C7, amended: for plain-HTTP connections the claim holds — an
unknown domain equal to localhost or 127.0.0.1 gets the status page (or
the kill endpoint), any other unknown domain gets a 404 whose plain-text
body lists the registered domains — but a WebSocket-upgrade connection
with an unknown domain always gets a bare empty 404, localhost included. -/
theorem C7_theorem :
    (∀ (peek m path : String) (reg : Registry), isWebsocketReq peek = true →
      mapLookup reg.services
        (stripPort ((extract_host_from_headers peek).getD "")) = none →
      (handle_connection peek m path reg).1 = ProxyAction.wsNotFound) ∧
    (∀ (m host path : String) (reg : Registry),
      mapLookup reg.services (stripPort host) = none →
      (stripPort host = "localhost" ∨ stripPort host = "127.0.0.1") →
      strStartsWith path "/api/kill/" = false →
      (handle_http_request m host path reg).1 =
        ProxyAction.dashboard reg.list) ∧
    (∀ (m host path : String) (reg : Registry),
      mapLookup reg.services (stripPort host) = none →
      stripPort host ≠ "localhost" → stripPort host ≠ "127.0.0.1" →
      (handle_http_request m host path reg).1 =
        ProxyAction.notFoundList (stripPort host) reg.list ∧
      ((handle_http_request m host path reg).1).status = some 404 ∧
      ((handle_http_request m host path reg).1).bodyOf =
        some (notFoundBody (stripPort host) reg.list)) ∧
    ProxyAction.wsNotFound.bodyOf = some "" := by
  refine ⟨?_, ?_, ?_, rfl⟩
  · intro peek m path reg hws hl
    simp [handle_connection, hws, hl]
  · intro m host path reg h1 h2 h3
    rcases h2 with h2 | h2 <;> rw [h2] at h1 <;>
      simp [handle_http_request, h1, h2, h3]
  · intro m host path reg h1 hA hB
    refine ⟨?_, ?_, ?_⟩ <;>
      simp [handle_http_request, h1, hA, hB, ProxyAction.status,
        ProxyAction.bodyOf]

/-- Claim C7, witness: concrete instances of the three branches. -/
theorem C7_witness :
    ((handle_connection
      "GET / HTTP/1.1\r\nHost: nope.localhost\r\nUpgrade: websocket\r\n\r\n"
      "GET" "/" ⟨[], 4000⟩).1 = ProxyAction.wsNotFound) ∧
    ((handle_http_request "GET" "localhost" "/" ⟨[], 4000⟩).1 =
      ProxyAction.dashboard (Registry.mk [] 4000).list) ∧
    ((handle_http_request "GET" "nope.localhost" "/"
      ⟨[("api.localhost", ⟨"api.localhost", 4000, 42, "/a"⟩)], 4001⟩).1 =
      ProxyAction.notFoundList "nope.localhost"
        (Registry.mk [("api.localhost", ⟨"api.localhost", 4000, 42, "/a"⟩)]
          4001).list) :=
  ⟨C7_theorem.1 _ "GET" "/" _ (by decide) (by decide),
   C7_theorem.2.1 "GET" "localhost" "/" _ (by decide) (Or.inl (by decide))
     (by decide),
   (C7_theorem.2.2.1 "GET" "nope.localhost" "/" _ (by decide) (by decide)
     (by decide)).1⟩

/-- Claim C8, counterexample: a Shutdown control request makes
handle_request exit the process directly; the run-loop cleanup never
executes on that path, so neither the control socket file nor the pid file
is removed. -/
theorem C8_counterexample :
    (handle_request Req.shutdown Registry.new).exited = true ∧
    filesRemovedOnExit ExitTrigger.shutdownRequest = [] ∧
    socketFile ∉ filesRemovedOnExit ExitTrigger.shutdownRequest ∧
    pidFile ∉ filesRemovedOnExit ExitTrigger.shutdownRequest := by
  refine ⟨rfl, rfl, by decide, by decide⟩

/-- Claim C8, amended: the control socket and pid file are removed when
the daemon exits via a termination signal or because a listener task
ended, but a Shutdown control request terminates the process inside
handle_request without removing either file. -/
theorem C8_theorem :
    filesRemovedOnExit ExitTrigger.ctrlC = [socketFile, pidFile] ∧
    filesRemovedOnExit ExitTrigger.socketTaskEnd = [socketFile, pidFile] ∧
    filesRemovedOnExit ExitTrigger.proxyTaskEnd = [socketFile, pidFile] ∧
    filesRemovedOnExit ExitTrigger.shutdownRequest = [] ∧
    (∀ reg : Registry, (handle_request Req.shutdown reg).exited = true ∧
      (handle_request Req.shutdown reg).reg = reg ∧
      (handle_request Req.shutdown reg).fsOps = []) :=
  ⟨rfl, rfl, rfl, rfl, fun _ => ⟨rfl, rfl, rfl⟩⟩

/-- Claim C9, counterexample: with both portArg and portEnv supplied in
the config, the spawned child gets environment-variable injection, not the
claimed CLI-flag injection: spawn_app matches its env override before its
arg override. -/
theorem C9_counterexample :
    clientSpawn ⟨"api", some "run x", some "PORT", some "--port"⟩
      "npm run dev" (PortStrategy.envVar "PORT") 4000 =
      some ⟨"run", ["x"], [("PORT", "4000")]⟩ ∧
    clientSpawn ⟨"api", some "run x", some "PORT", some "--port"⟩
      "npm run dev" (PortStrategy.envVar "PORT") 4000 ≠
      some ⟨"run", ["x", "--port", "4000"], []⟩ := by
  decide

/-- Claim C9, amended: client::start computes a PortStrategy value with
portArg taking precedence, but then hands both raw overrides to
spawn_app, whose override match takes portEnv first — so the effective
injection precedence is portEnv (environment variable), then portArg
(CLI flag), and only with neither supplied the detected strategy. -/
theorem C9_theorem :
    (∀ (cfg : Config) (dcmd : String) (det : PortStrategy) (port : Nat),
      clientSpawn cfg dcmd det port =
        spawn_app (cfg.start.getD dcmd) port (choosePortStrategy cfg det)
          cfg.port_env cfg.port_arg) ∧
    (∀ (cfg : Config) (det : PortStrategy) (a : String),
      cfg.port_arg = some a → choosePortStrategy cfg det = .cliFlag a) ∧
    (∀ (cmd : String) (port : Nat) (strat : PortStrategy) (e : String)
      (argOv : Option String) (prog : String) (args : List String),
      ((splitOnCharL ' ' cmd.data).map
        (fun l => (⟨l⟩ : String))).filter (fun s => s ≠ "") = prog :: args →
      spawn_app cmd port strat (some e) argOv =
        some ⟨prog, args, [(e, toString port)]⟩) ∧
    (∀ (cmd : String) (port : Nat) (strat : PortStrategy) (a : String)
      (prog : String) (args : List String),
      ((splitOnCharL ' ' cmd.data).map
        (fun l => (⟨l⟩ : String))).filter (fun s => s ≠ "") = prog :: args →
      spawn_app cmd port strat none (some a) =
        some ⟨prog, args ++ [a, toString port], []⟩) := by
  refine ⟨fun cfg dcmd det port => rfl, ?_, ?_, ?_⟩
  · intro cfg det a h
    simp [choosePortStrategy, h]
  · intro cmd port strat e argOv prog args h
    simp only [spawn_app, h]
  · intro cmd port strat a prog args h
    simp only [spawn_app, h]

/-- Claim C9, witness: concrete spawns under each override combination. -/
theorem C9_witness :
    (choosePortStrategy ⟨"api", none, some "PORT", some "--port"⟩
      (PortStrategy.envVar "PORT") = PortStrategy.cliFlag "--port") ∧
    (spawn_app "run x" 4000 (PortStrategy.cliFlag "--port") (some "PORT")
      (some "--port") = some ⟨"run", ["x"], [("PORT", "4000")]⟩) ∧
    (spawn_app "run x" 4000 (PortStrategy.envVar "PORT") none (some "--port") =
      some ⟨"run", ["x", "--port", "4000"], []⟩) :=
  ⟨C9_theorem.2.1 ⟨"api", none, some "PORT", some "--port"⟩
     (PortStrategy.envVar "PORT") "--port" rfl,
   C9_theorem.2.2.1 "run x" 4000 (PortStrategy.cliFlag "--port") "PORT"
     (some "--port") "run" ["x"] (by decide),
   C9_theorem.2.2.2 "run x" 4000 (PortStrategy.envVar "PORT") "--port"
     "run" ["x"] (by decide)⟩

/-- Claim C10: the kill endpoint never inspects the request method — the
whole HTTP handler is method-independent — and for a localhost (or
127.0.0.1) Host with no binding of its own, a path /api/kill/d with d a
non-empty registered domain unregisters d and SIGTERMs its pid answering
200 with body ok, while an unregistered d answers 404 not-found. -/
theorem C10_theorem :
    (∀ (m₁ m₂ host path : String) (reg : Registry),
      handle_http_request m₁ host path reg =
        handle_http_request m₂ host path reg) ∧
    (∀ (m host path d : String) (reg : Registry) (svc : Service),
      mapLookup reg.services (stripPort host) = none →
      (stripPort host = "localhost" ∨ stripPort host = "127.0.0.1") →
      strStartsWith path "/api/kill/" = true →
      strDrop path 10 = d → d ≠ "" →
      mapLookup reg.services d = some svc →
      handle_http_request m host path reg =
        (ProxyAction.killOk,
          { reg with services := mapRemove reg.services d }, [svc.pid]) ∧
      mapLookup (mapRemove reg.services d) d = none ∧
      ProxyAction.killOk.status = some 200 ∧
      ProxyAction.killOk.bodyOf = some killOkBody) ∧
    (∀ (m host path d : String) (reg : Registry),
      mapLookup reg.services (stripPort host) = none →
      (stripPort host = "localhost" ∨ stripPort host = "127.0.0.1") →
      strStartsWith path "/api/kill/" = true →
      strDrop path 10 = d → d ≠ "" →
      mapLookup reg.services d = none →
      (handle_http_request m host path reg).1 = ProxyAction.killNotFound ∧
      (handle_http_request m host path reg).2.2 = [] ∧
      ProxyAction.killNotFound.status = some 404 ∧
      ProxyAction.killNotFound.bodyOf = some killNotFoundBody) := by
  refine ⟨fun m₁ m₂ host path reg => rfl, ?_, ?_⟩
  · intro m host path d reg svc h1 h2 h3 h4 h5 h6
    refine ⟨?_, mapLookup_mapRemove_self _ _, rfl, rfl⟩
    rcases h2 with h2 | h2 <;> rw [h2] at h1 <;>
      simp [handle_http_request, h1, h2, h3, h4, h5, h6,
        Registry.unregister]
  · intro m host path d reg h1 h2 h3 h4 h5 h6
    refine ⟨?_, ?_, rfl, rfl⟩ <;>
      rcases h2 with h2 | h2 <;> rw [h2] at h1 <;>
        simp [handle_http_request, h1, h2, h3, h4, h5, h6,
          Registry.unregister]

/-- Claim C10, witness: a concrete GET and POST to the kill endpoint have
identical effect, killing the registered domain with a 200, and a GET for
an unregistered domain answers 404. -/
theorem C10_witness :
    (handle_http_request "GET" "localhost" "/api/kill/api.localhost"
        ⟨[("api.localhost", ⟨"api.localhost", 4000, 42, "/a"⟩)], 4001⟩ =
      handle_http_request "POST" "localhost" "/api/kill/api.localhost"
        ⟨[("api.localhost", ⟨"api.localhost", 4000, 42, "/a"⟩)], 4001⟩) ∧
    (handle_http_request "GET" "localhost" "/api/kill/api.localhost"
        ⟨[("api.localhost", ⟨"api.localhost", 4000, 42, "/a"⟩)], 4001⟩ =
      (ProxyAction.killOk,
        { services := mapRemove
            [("api.localhost", ⟨"api.localhost", 4000, 42, "/a"⟩)]
            "api.localhost", next_port := 4001 }, [42])) ∧
    ((handle_http_request "GET" "localhost" "/api/kill/nope.localhost"
        ⟨[("api.localhost", ⟨"api.localhost", 4000, 42, "/a"⟩)], 4001⟩).1 =
      ProxyAction.killNotFound) :=
  ⟨C10_theorem.1 "GET" "POST" "localhost" "/api/kill/api.localhost" _,
   (C10_theorem.2.1 "GET" "localhost" "/api/kill/api.localhost"
      "api.localhost" _ ⟨"api.localhost", 4000, 42, "/a"⟩ (by decide)
      (Or.inl (by decide)) (by decide) (by decide) (by decide) (by decide)).1,
   (C10_theorem.2.2 "GET" "localhost" "/api/kill/nope.localhost"
      "nope.localhost" _ (by decide) (Or.inl (by decide)) (by decide)
      (by decide) (by decide) (by decide)).1⟩
end Unport
